import Mathlib

/-!
# Verification of the SITL Sailboat dynamics core

A shallow embedding of `libraries/SITL/SIM_Sailboat.cpp` (the current
variant, with the torque-based heel dynamics model).  Floating point
numbers are modelled as real numbers; the external collaborators listed
in the spec (attitude matrix `rotate`/`normalize`/`to_euler`/`from_euler`,
ambient wind update) are parameters of the step function.  AP_Math
helpers that are not part of the shown sources (`wrap_180`, `wrap_2PI`,
`linear_interpolate`, `is_zero`, `constrain_float`, `signum`,
`safe_sqrt`) are modelled from the spec, as noted on each definition.
-/

namespace SailboatSim

noncomputable section

open Real

/-- degrees to radians, AP_Math `radians(x)` = x·π/180. -/
def radians (x : ℝ) : ℝ := x * Real.pi / 180

/-- radians to degrees, AP_Math `degrees(x)` = x·180/π. -/
def degrees (x : ℝ) : ℝ := x * 180 / Real.pi

/-- Modelled from the spec: the sign function `signum` used by the sail
force model ("lift sign is reapplied as the sign of the signed angle");
the AP_Math helper is not among the shown sources.  Returns 1, -1 or 0. -/
def signum (x : ℝ) : ℝ := if 0 < x then 1 else if x < 0 then -1 else 0

/-- Modelled from the spec: `constrain_float(v, lo, hi)` clamps `v` into
`[lo, hi]` ("linearly mapped from its raw range to a type-specific
angular range, clamped to that range"); the AP_Math helper is not among
the shown sources. -/
def constrain_value (v lo hi : ℝ) : ℝ := min (max v lo) hi

/-- Modelled from the spec: `safe_sqrt` is the square root, returning 0
for negative arguments (which `Real.sqrt` already does); the AP_Math
helper is not among the shown sources. -/
def safe_sqrt (x : ℝ) : ℝ := Real.sqrt x

/-- Modelled from the spec: `wrap_360` reduces an angle in degrees into
`[0, 360)`; the AP_Math helper is not among the shown sources. -/
def wrap_360 (a : ℝ) : ℝ := a - 360 * ⌊a / 360⌋

/-- Modelled from the spec: `wrap_180` normalizes an angle in degrees
into `[-180, 180]` (more precisely `(-180, 180]`); the AP_Math helper is
not among the shown sources. -/
def wrap_180 (a : ℝ) : ℝ :=
  if wrap_360 a > 180 then wrap_360 a - 360 else wrap_360 a

/-- Modelled from the spec: `wrap_2PI` wraps an angle in radians into
`[0, 2π)` ("then wrap into [0, 2π)"); the AP_Math helper is not among
the shown sources. -/
def wrap_2PI (a : ℝ) : ℝ := a - 2 * Real.pi * ⌊a / (2 * Real.pi)⌋

/-- Modelled from the spec: `wrap_PI` wraps an angle in radians into
`(-π, π]`; the AP_Math helper is not among the shown sources. -/
def wrap_PI (a : ℝ) : ℝ :=
  if wrap_2PI a > Real.pi then wrap_2PI a - 2 * Real.pi else wrap_2PI a

/-- The C library `atan2(y, x)`: the angle of the point `(x, y)`,
in `(-π, π]`. -/
def atan2 (y x : ℝ) : ℝ :=
  if 0 < x then Real.arctan (y / x)
  else if x < 0 then
    (if 0 ≤ y then Real.arctan (y / x) + Real.pi
     else Real.arctan (y / x) - Real.pi)
  else
    (if 0 < y then Real.pi / 2 else if y < 0 then -(Real.pi / 2) else 0)

/-- Modelled from the spec: `linear_interpolate(x, points, n)` —
"piecewise-linear interpolation between the two bracketing breakpoints;
below the first breakpoint use the first value; at or above the last
breakpoint, return the last tabulated value."  The AP_Math curve-table
helper is not among the shown sources. -/
def lookupCurve : List (ℝ × ℝ) → ℝ → ℝ
  | [], _ => 0
  | [(_, c)], _ => c
  | (a₁, c₁) :: (a₂, c₂) :: rest, x =>
      if x ≤ a₁ then c₁
      else if x ≤ a₂ then c₁ + (x - a₁) * (c₂ - c₁) / (a₂ - a₁)
      else lookupCurve ((a₂, c₂) :: rest) x

/-! ## Constants fixed by the Sailboat constructor and the source -/

/-- `steering_angle_max` (degrees), set to 35 in the constructor. -/
def steering_angle_max : ℝ := 35

/-- `turning_circle` (meters), set to 1.8 in the constructor. -/
def turning_circle : ℝ := 1.8

/-- `sail_area`, set to 1.5 in the constructor. -/
def sail_area : ℝ := 1.5

/-- `Aircraft::mass`, set to 4.0 kg in the constructor. -/
def mass : ℝ := 4

/-- `GRAVITY_MSS`. -/
def GRAVITY_MSS : ℝ := 9.80665

/-- The lift-coefficient curve `CL_curve` (angle in degrees, CL). -/
def CL_curve : List (ℝ × ℝ) :=
  [(0, 0), (10, 0.5), (20, 1), (30, 1.1), (40, 0.95), (50, 0.75),
   (60, 0.6), (70, 0.4), (80, 0.2), (90, 0), (100, -0.2), (110, -0.4),
   (120, -0.6), (130, -0.75), (140, -0.95), (150, -1.1), (160, -1),
   (170, -0.5)]

/-- The drag-coefficient curve `CD_curve` (angle in degrees, CD). -/
def CD_curve : List (ℝ × ℝ) :=
  [(0, 0.1), (10, 0.1), (20, 0.2), (30, 0.4), (40, 0.8), (50, 1.2),
   (60, 1.5), (70, 1.7), (80, 1.9), (90, 1.95), (100, 1.9), (110, 1.7),
   (120, 1.5), (130, 1.2), (140, 0.8), (150, 0.4), (160, 0.2),
   (170, 0.1)]

/-! ## The sail force model -/

/-- `Sailboat::calc_lift_and_drag`: wraps the angle of attack to
±180°, interpolates CL and CD on the absolute angle, and scales by the
common coefficient ½·ρ·v²·A with ρ = 1.225 and A = `sail_area`.
Returns `(lift, drag)`. -/
def calc_lift_and_drag (wind_speed_m_per_s angle_of_attack_deg : ℝ) : ℝ × ℝ :=
  let signed_aoa_deg := wrap_180 angle_of_attack_deg
  let abs_aoa_deg := |signed_aoa_deg|
  let cl := lookupCurve CL_curve abs_aoa_deg
  let cd := lookupCurve CD_curve abs_aoa_deg
  let air_density_kg_per_m3 : ℝ := 1.225
  let common_coefficient := 1 / 2 * air_density_kg_per_m3 * wind_speed_m_per_s ^ 2 * sail_area
  (cl * common_coefficient * signum signed_aoa_deg, cd * common_coefficient)

/-! ## Steering kinematics -/

/-- `Sailboat::get_turn_circle`: turning circle diameter in meters for a
steering proportion in [-1, 1].  `is_zero` is modelled from the spec as
comparison with exact zero ("zero steering yields ... diameter 0"). -/
def get_turn_circle (steering : ℝ) : ℝ :=
  if steering = 0 then 0
  else turning_circle * Real.sin (radians steering_angle_max) /
    Real.sin (radians (steering * steering_angle_max))

/-- `Sailboat::get_yaw_rate`: yaw rate in deg/s from steering in [-1, 1]
and speed in m/s. -/
def get_yaw_rate (steering speed : ℝ) : ℝ :=
  if steering = 0 ∨ speed = 0 then 0
  else
    let d_m := get_turn_circle steering
    let c_m := Real.pi * d_m
    let t_s := c_m / speed
    360 / t_s

/-- `Sailboat::get_lat_accel`: lateral acceleration in m/s². -/
def get_lat_accel (steering speed : ℝ) : ℝ :=
  radians (get_yaw_rate steering speed) * speed

/-! ## Heel dynamics model -/

/-- `Sailboat::get_heel_angular_acceleration`: heel angular acceleration
in rad/s² from the heel force, current roll angle and roll rate.  The
armed state (`hal.util->get_soft_armed()`) is passed as a parameter. -/
def get_heel_angular_acceleration (soft_armed : Bool)
    (force_heel current_roll_angle_bf_rad current_roll_rate_rad_per_s : ℝ) : ℝ :=
  if ¬soft_armed then 0
  else
    let vertical_ce : ℝ := 200
    let keel_mass : ℝ := 2.5
    let keel_depth : ℝ := 0.5
    let keel_chord : ℝ := 0.1
    let g : ℝ := 1
    let overturning_moment := force_heel * vertical_ce * Real.cos current_roll_angle_bf_rad
    let righting_moment := -1 * keel_mass * g * keel_depth * Real.sin current_roll_angle_bf_rad
    let kDamping : ℝ := 1
    let damping_moment :=
      -1 * keel_depth ^ 2 * keel_chord * current_roll_rate_rad_per_s * kDamping
    let resultant := overturning_moment + righting_moment + damping_moment
    let kMomentOfInertia : ℝ := 300
    let moment_of_inertia := keel_mass * keel_depth ^ 2 * kMomentOfInertia
    resultant / moment_of_inertia

/-! ## Data model: vectors, matrices, environment, state -/

/-- A 3-component vector of reals (`Vector3f`). -/
structure Vec3 where
  x : ℝ
  y : ℝ
  z : ℝ
deriving DecidableEq

namespace Vec3

/-- Componentwise addition. -/
def add (a b : Vec3) : Vec3 := ⟨a.x + b.x, a.y + b.y, a.z + b.z⟩

/-- Componentwise subtraction. -/
def sub (a b : Vec3) : Vec3 := ⟨a.x - b.x, a.y - b.y, a.z - b.z⟩

/-- Scaling by a scalar. -/
def smul (k : ℝ) (a : Vec3) : Vec3 := ⟨k * a.x, k * a.y, k * a.z⟩

/-- The zero vector. -/
def zero : Vec3 := ⟨0, 0, 0⟩

end Vec3

/-- A 3×3 matrix of reals (`Matrix3f`), stored as rows. -/
structure Mat3 where
  a : Vec3
  b : Vec3
  c : Vec3

namespace Mat3

/-- Matrix–vector product `m * v`. -/
def mulVec (m : Mat3) (v : Vec3) : Vec3 :=
  ⟨m.a.x * v.x + m.a.y * v.y + m.a.z * v.z,
   m.b.x * v.x + m.b.y * v.y + m.b.z * v.z,
   m.c.x * v.x + m.c.y * v.y + m.c.z * v.z⟩

/-- `Matrix3f::mul_transpose`: product of the transpose with a vector,
`mᵀ * v` (used to rotate earth-frame vectors into body frame). -/
def mulTranspose (m : Mat3) (v : Vec3) : Vec3 :=
  ⟨m.a.x * v.x + m.b.x * v.y + m.c.x * v.z,
   m.a.y * v.x + m.b.y * v.y + m.c.y * v.z,
   m.a.z * v.x + m.b.z * v.y + m.c.z * v.z⟩

/-- The identity matrix. -/
def one : Mat3 := ⟨⟨1, 0, 0⟩, ⟨0, 1, 0⟩, ⟨0, 0, 1⟩⟩

end Mat3

/-- The sail type selector (`Sail_type`). -/
inductive SailType where
  | directly_actuated_wing
  | mainsail_with_sheet
deriving DecidableEq

/-- A control-input snapshot: the servo output channels
(`sitl_input.servos`). -/
structure Input where
  servos : Fin 16 → ℝ

/-- The ambient environment and configuration, fixed during a run: SITL
parameters (wave, tide, sail type), the soft-armed flag and the frame
time. -/
structure Env where
  soft_armed : Bool
  sail_type : SailType
  wave_enable : ℤ
  wave_direction : ℝ
  wave_speed : ℝ
  wave_length : ℝ
  wave_amp : ℝ
  tide_speed : ℝ
  tide_direction : ℝ
  frame_time_us : ℝ
  motor_connected : Bool

/-- The external collaborators used by the step function (spec §6):
attitude-matrix operations from the excluded rotation-algebra library
and the ambient wind-field update.  They are deterministic functions,
passed as parameters. -/
structure Collab where
  rotate : Mat3 → Vec3 → Mat3
  normalizeM : Mat3 → Mat3
  toEuler : Mat3 → ℝ × ℝ × ℝ
  fromEuler : ℝ → ℝ → ℝ → Mat3
  windEF : Input → Vec3

/-- The mutable vehicle state touched by `Sailboat::update` (including
the wave-generator state and the module-level print timers). -/
structure State where
  dcm : Mat3
  gyro : Vec3
  velocity_ef : Vec3
  velocity_ef_water : Vec3
  position : Vec3
  accel_body : Vec3
  wave_gyro : Vec3
  wave_heave : ℝ
  wave_phase : ℝ
  rpm0 : ℝ
  airspeed_pitot : ℝ
  update_time_s : ℝ
  last_print_time_s : ℝ

/-! ## Wave disturbance generator -/

/-- `Sailboat::update_wave`: evolves the wave phase and produces the
gyro disturbance and heave.  Reads the current attitude (via the euler
collaborator), earth-frame velocity and prior phase. -/
def update_wave (c : Collab) (env : Env) (delta_time : ℝ) (s : State) : State :=
  let wave_heading := env.wave_direction
  let wave_speed := env.wave_speed
  let wave_length := env.wave_length
  let wave_amp := env.wave_amp
  let r := (c.toEuler s.dcm).1
  let p := (c.toEuler s.dcm).2.1
  let y := (c.toEuler s.dcm).2.2
  if env.wave_enable = 0 ∨ ¬env.soft_armed ∨ wave_amp = 0 then
    { s with wave_gyro := Vec3.smul 1 ⟨-r, -p, 0⟩,
             wave_heave := -s.velocity_ef.z * 1,
             wave_phase := 0 }
  else
    let boat_speed := s.velocity_ef.x * Real.sin (radians wave_heading) +
      s.velocity_ef.y * Real.cos (radians wave_heading)
    let apparent_wave_distance := (wave_speed - boat_speed) * delta_time
    let apparent_wave_phase_change := apparent_wave_distance / wave_length * (2 * Real.pi)
    let wave_phase := wrap_2PI (s.wave_phase + apparent_wave_phase_change)
    let wave_slope := wave_amp * 0.5 * (2 * Real.pi / wave_length) * Real.cos wave_phase
    let wave_angle := Real.arctan wave_slope
    let heading_dif := wave_heading - y
    let angle_error_x := Real.sin heading_dif * wave_angle - r
    let angle_error_y := Real.cos heading_dif * wave_angle - p
    let wave_heave := if env.wave_enable = 2 then (wave_slope - s.velocity_ef.z) * 1 else 0
    { s with wave_gyro := ⟨angle_error_x * 1, angle_error_y * 1, 0⟩,
             wave_heave := wave_heave,
             wave_phase := wave_phase }

/-! ## The update pipeline -/

/-- `Sailboat::get_mainsail_angle_bf`: mainsail (or wing) angle in body
frame degrees from the servo channels, per sail type. -/
def get_mainsail_angle_bf (env : Env) (input : Input) : ℝ :=
  match env.sail_type with
  | SailType.directly_actuated_wing =>
      constrain_value ((input.servos 4 - 1500) / 500 * 90) (-90) 90
  | SailType.mainsail_with_sheet =>
      constrain_value ((input.servos 3 - 1000) / 1000 * 90) 0 90

/-- The signed sail angle of attack in degrees (`aoa_deg` in
`Sailboat::update`): direct difference for the wing type, and
`max(|wind| - sail, 0) * signum wind` for the sheet-trimmed type. -/
def sail_aoa_deg (sail_type : SailType) (wind_apparent_dir_bf_signed mainsail_angle_bf : ℝ) : ℝ :=
  match sail_type with
  | SailType.directly_actuated_wing => wind_apparent_dir_bf_signed - mainsail_angle_bf
  | SailType.mainsail_with_sheet =>
      max (|wind_apparent_dir_bf_signed| - mainsail_angle_bf) 0 *
        signum wind_apparent_dir_bf_signed

/-- The steering proportion decoded from servo channel 0 in
`Sailboat::update`. -/
def steering_of (input : Input) : ℝ := 2 * ((input.servos 0 - 1000) / 1000 - 0.5)

/-- The apparent wind in body frame (`wind_apparent_bf`):
`dcm.mul_transpose(velocity_ef - wind_ef)`. -/
def wind_apparent_bf (c : Collab) (input : Input) (s : State) : Vec3 :=
  Mat3.mulTranspose s.dcm (Vec3.sub s.velocity_ef (c.windEF input))

/-- The signed body-frame apparent wind direction in degrees
(`wind_apparent_dir_bf_signed`). -/
def wind_apparent_dir_bf_signed (c : Collab) (input : Input) (s : State) : ℝ :=
  wrap_180 (degrees (atan2 (wind_apparent_bf c input s).y (wind_apparent_bf c input s).x))

/-- The body-frame apparent wind speed (`wind_apparent_speed_bf`). -/
def wind_apparent_speed_bf (c : Collab) (input : Input) (s : State) : ℝ :=
  safe_sqrt ((wind_apparent_bf c input s).y ^ 2 + (wind_apparent_bf c input s).x ^ 2)

/-- The `(lift, drag)` pair computed in `Sailboat::update` from the
body-frame apparent wind and the sail angle of attack. -/
def update_lift_drag (c : Collab) (env : Env) (input : Input) (s : State) : ℝ × ℝ :=
  calc_lift_and_drag (wind_apparent_speed_bf c input s)
    (sail_aoa_deg env.sail_type (wind_apparent_dir_bf_signed c input s)
      (get_mainsail_angle_bf env input))

/-- The rotation of the wind-frame lift/drag pair into the body-frame
`(force_fwd, force_heel)` pair in `Sailboat::update`, through the
apparent-wind body-frame angle. -/
def update_forces (c : Collab) (env : Env) (input : Input) (s : State) : ℝ × ℝ :=
  let lift_wf := (update_lift_drag c env input s).1
  let drag_wf := (update_lift_drag c env input s).2
  let sin_rot_rad := Real.sin (radians (wind_apparent_dir_bf_signed c input s))
  let cos_rot_rad := Real.cos (radians (wind_apparent_dir_bf_signed c input s))
  (lift_wf * sin_rot_rad - drag_wf * cos_rot_rad,
   lift_wf * cos_rot_rad + drag_wf * sin_rot_rad)

/-- The tide velocity in earth frame computed in `Sailboat::update`:
horizontal components opposite the configured tide direction, zero when
disarmed or when the configured tide speed is zero. -/
def tide_velocity_ef (env : Env) : Vec3 :=
  if env.soft_armed = true ∧ env.tide_speed ≠ 0 then
    ⟨-Real.cos (radians env.tide_direction) * env.tide_speed,
     -Real.sin (radians env.tide_direction) * env.tide_speed,
     0⟩
  else Vec3.zero

/-- `Sailboat::update`: one simulation step, mirroring the source order:
wind update, steering decode, apparent-wind computation, sail forces,
heel and yaw dynamics, attitude integration, hull drag and throttle,
acceleration composition, tide, velocity and position integration, and
finally the wave update. -/
def update (c : Collab) (env : Env) (input : Input) (s : State) : State :=
  let steering := steering_of input
  let speed_bf := wind_apparent_speed_bf c input s
  let force_fwd := (update_forces c env input s).1
  let force_heel := (update_forces c env input s).2
  let delta_time := env.frame_time_us * 1e-6
  let update_time_s := s.update_time_s + delta_time
  let velocity_body := Mat3.mulTranspose s.dcm s.velocity_ef_water
  let keel_bf := Mat3.mulTranspose s.dcm ⟨0, 0, 1⟩
  let heelAngle_rad := wrap_PI (atan2 keel_bf.y keel_bf.z)
  let last_print_time_s :=
    if update_time_s - s.last_print_time_s > 1 then update_time_s else s.last_print_time_s
  let speed := velocity_body.x
  let yaw_rate := get_yaw_rate steering speed
  let roll_rate :=
    s.gyro.x - get_heel_angular_acceleration env.soft_armed force_heel heelAngle_rad s.gyro.x * delta_time
  let gyro := Vec3.add ⟨roll_rate, 0, radians yaw_rate⟩ s.wave_gyro
  let dcm := c.normalizeM (c.rotate s.dcm (Vec3.smul delta_time gyro))
  let hullDragGain : ℝ := 0.5
  let hull_drag := speed ^ 2 * mass * hullDragGain * signum speed
  let throttle_force :=
    if env.motor_connected then (constrain_value (input.servos 2) 1000 2000 - 1500) * 0.1 else 0
  let accel_body := Vec3.smul (1 / mass) ⟨throttle_force + force_fwd - hull_drag, 0, 0⟩
  let accel_body1 : Vec3 := ⟨accel_body.x, accel_body.y + radians yaw_rate * speed, accel_body.z⟩
  let y := (c.toEuler dcm).2.2
  let temp_dcm := c.fromEuler 0 0 y
  let accel_earth := Mat3.mulVec temp_dcm accel_body1
  let accel_earth1 : Vec3 := ⟨accel_earth.x, accel_earth.y, 0 + s.wave_heave⟩
  let accel_body2 := Mat3.mulTranspose dcm (Vec3.add accel_earth1 ⟨0, 0, -GRAVITY_MSS⟩)
  let tide := tide_velocity_ef env
  let velocity_ef_water := Vec3.add s.velocity_ef_water (Vec3.smul delta_time accel_earth1)
  let velocity_ef := Vec3.add velocity_ef_water tide
  let position := Vec3.add s.position (Vec3.smul delta_time velocity_ef)
  let s1 : State :=
    { dcm := dcm, gyro := gyro, velocity_ef := velocity_ef,
      velocity_ef_water := velocity_ef_water, position := position,
      accel_body := accel_body2, wave_gyro := s.wave_gyro,
      wave_heave := s.wave_heave, wave_phase := s.wave_phase,
      rpm0 := speed_bf, airspeed_pitot := speed_bf,
      update_time_s := update_time_s, last_print_time_s := last_print_time_s }
  update_wave c env delta_time s1

/-- Run `n` update steps, feeding the `i`-th input snapshot to the
`i`-th step. -/
def runSteps (c : Collab) (env : Env) (ins : ℕ → Input) : ℕ → State → State
  | 0, s => s
  | n + 1, s => update c env (ins n) (runSteps c env ins n s)

/-! ## Concrete sample instances (used by witnesses) -/

/-- A concrete collaborator instance with trivial rotation algebra. -/
def sampleCollab : Collab :=
  { rotate := fun m _ => m,
    normalizeM := fun m => m,
    toEuler := fun _ => (0, 0, 0),
    fromEuler := fun _ _ _ => Mat3.one,
    windEF := fun _ => Vec3.zero }

/-- A concrete environment: disarmed, waves off, no tide. -/
def sampleEnv : Env :=
  { soft_armed := false,
    sail_type := SailType.mainsail_with_sheet,
    wave_enable := 0,
    wave_direction := 0,
    wave_speed := 0,
    wave_length := 10,
    wave_amp := 0,
    tide_speed := 0,
    tide_direction := 0,
    frame_time_us := 20000,
    motor_connected := false }

/-- A concrete input snapshot with all servos at 1500. -/
def sampleInput : Input := { servos := fun _ => 1500 }

/-- A concrete initial state: identity attitude, everything at rest. -/
def sampleState : State :=
  { dcm := Mat3.one, gyro := Vec3.zero, velocity_ef := Vec3.zero,
    velocity_ef_water := Vec3.zero, position := Vec3.zero,
    accel_body := Vec3.zero, wave_gyro := Vec3.zero, wave_heave := 0,
    wave_phase := 0, rpm0 := 0, airspeed_pitot := 0, update_time_s := 0,
    last_print_time_s := 0 }

/-- A concrete environment with waves enabled and the vehicle armed. -/
def sampleEnvWaves : Env :=
  { soft_armed := true,
    sail_type := SailType.mainsail_with_sheet,
    wave_enable := 1,
    wave_direction := 30,
    wave_speed := 2,
    wave_length := 10,
    wave_amp := 0.5,
    tide_speed := 0,
    tide_direction := 0,
    frame_time_us := 20000,
    motor_connected := false }

/-- A second concrete input snapshot, different from `sampleInput`. -/
def sampleInputB : Input := { servos := fun _ => 1200 }

/-- A concrete armed environment with a nonzero configured tide. -/
def sampleEnvTide : Env :=
  { soft_armed := true,
    sail_type := SailType.mainsail_with_sheet,
    wave_enable := 0,
    wave_direction := 0,
    wave_speed := 0,
    wave_length := 10,
    wave_amp := 0,
    tide_speed := 1.5,
    tide_direction := 45,
    frame_time_us := 20000,
    motor_connected := false }

/-! ## Helper lemmas -/

/-- `update_wave` only writes the wave fields: earth-frame velocity is
untouched. -/
theorem update_wave_velocity_ef (c : Collab) (env : Env) (dt : ℝ) (s : State) :
    (update_wave c env dt s).velocity_ef = s.velocity_ef := by
  unfold update_wave
  by_cases h : env.wave_enable = 0 ∨ ¬env.soft_armed ∨ env.wave_amp = 0
  · rw [if_pos h]
  · rw [if_neg h]

/-- `update_wave` only writes the wave fields: water-relative velocity
is untouched. -/
theorem update_wave_velocity_ef_water (c : Collab) (env : Env) (dt : ℝ) (s : State) :
    (update_wave c env dt s).velocity_ef_water = s.velocity_ef_water := by
  unfold update_wave
  by_cases h : env.wave_enable = 0 ∨ ¬env.soft_armed ∨ env.wave_amp = 0
  · rw [if_pos h]
  · rw [if_neg h]

/-- Adding the zero vector is the identity. -/
theorem Vec3.add_zero (v : Vec3) : Vec3.add v Vec3.zero = v := by
  simp [Vec3.add, Vec3.zero]

/-- In every step, the published earth-frame velocity is the updated
water-relative velocity plus the tide velocity. -/
theorem update_velocity_ef_split (c : Collab) (env : Env) (input : Input) (s : State) :
    (update c env input s).velocity_ef =
      Vec3.add (update c env input s).velocity_ef_water (tide_velocity_ef env) := by
  unfold update
  rw [update_wave_velocity_ef, update_wave_velocity_ef_water]

/-- Numeric bounds for `cos(17.5°)` from the Taylor remainder bound. -/
theorem cos_7pi72_bounds :
    (0.9529 : ℝ) < Real.cos (7 * Real.pi / 72) ∧
      Real.cos (7 * Real.pi / 72) < 0.9539 := by
  set y : ℝ := 7 * Real.pi / 72 with hy_def
  have hpi_lo := Real.pi_gt_d6
  have hpi_hi := Real.pi_lt_d6
  have hylo : (0.305432 : ℝ) < y := by rw [hy_def]; nlinarith
  have hyhi : y < 0.305433 := by rw [hy_def]; nlinarith
  have hy_pos : 0 < y := by linarith
  have hy1 : |y| ≤ 1 := by rw [abs_of_pos hy_pos]; linarith
  have hb := Real.cos_bound hy1
  rw [abs_le, abs_of_pos hy_pos] at hb
  have hy2_hi : y ^ 2 < 0.09328932 := by nlinarith
  have hy2_lo : (0.0932887 : ℝ) < y ^ 2 := by nlinarith
  have hy4_hi : y ^ 4 < 0.0087029 := by nlinarith [sq_nonneg y, hy2_hi, hy2_lo]
  constructor
  · nlinarith [hb.1]
  · nlinarith [hb.2, sq_nonneg (y ^ 2)]

/-- The scenario turning-circle value `3.6·cos(17.5°)` is within 0.005
of 3.43 m. -/
theorem scenario_tc_bound :
    |3.6 * Real.cos (7 * Real.pi / 72) - 3.43| < 0.005 := by
  have h := cos_7pi72_bounds
  rw [abs_lt]
  constructor <;> nlinarith [h.1, h.2]

/-- The scenario yaw-rate value `360/((π·3.6·cos(17.5°))/2)` is within
0.2 of 66.9 deg/s. -/
theorem scenario_yaw_bound :
    |360 / (Real.pi * (3.6 * Real.cos (7 * Real.pi / 72)) / 2) - 66.9| < 0.2 := by
  have hcos := cos_7pi72_bounds
  have hpi_lo := Real.pi_gt_d6
  have hpi_hi := Real.pi_lt_d6
  have hcos_pos : (0 : ℝ) < Real.cos (7 * Real.pi / 72) := by linarith [hcos.1]
  have hpc_lo : (2.99362 : ℝ) < Real.pi * Real.cos (7 * Real.pi / 72) := by
    have h1 : (3.141592 : ℝ) * 0.9529 < 3.141592 * Real.cos (7 * Real.pi / 72) :=
      (mul_lt_mul_left (by norm_num)).2 hcos.1
    have h2 : (3.141592 : ℝ) * Real.cos (7 * Real.pi / 72) <
        Real.pi * Real.cos (7 * Real.pi / 72) :=
      (mul_lt_mul_right hcos_pos).2 hpi_lo
    have h3 : (2.99362 : ℝ) < 3.141592 * 0.9529 := by norm_num
    linarith
  have hpc_hi : Real.pi * Real.cos (7 * Real.pi / 72) < 2.99677 := by
    have h1 : Real.pi * Real.cos (7 * Real.pi / 72) < Real.pi * 0.9539 :=
      (mul_lt_mul_left Real.pi_pos).2 hcos.2
    have h2 : Real.pi * (0.9539 : ℝ) < 3.141593 * 0.9539 :=
      (mul_lt_mul_right (by norm_num)).2 hpi_hi
    have h3 : (3.141593 : ℝ) * 0.9539 < 2.99677 := by norm_num
    linarith
  have hxeq : Real.pi * (3.6 * Real.cos (7 * Real.pi / 72)) / 2 =
      1.8 * (Real.pi * Real.cos (7 * Real.pi / 72)) := by ring
  have hx_lo : (5.3885 : ℝ) < Real.pi * (3.6 * Real.cos (7 * Real.pi / 72)) / 2 := by
    rw [hxeq]; linarith
  have hx_hi : Real.pi * (3.6 * Real.cos (7 * Real.pi / 72)) / 2 < 5.3942 := by
    rw [hxeq]; linarith
  have hx_pos : (0 : ℝ) < Real.pi * (3.6 * Real.cos (7 * Real.pi / 72)) / 2 := by
    linarith
  rw [abs_lt]
  constructor
  · have h1 : (66.7 : ℝ) < 360 / (Real.pi * (3.6 * Real.cos (7 * Real.pi / 72)) / 2) := by
      rw [lt_div_iff₀ hx_pos]; linarith
    linarith
  · have h2 : (360 : ℝ) / (Real.pi * (3.6 * Real.cos (7 * Real.pi / 72)) / 2) < 67.1 := by
      rw [div_lt_iff₀ hx_pos]; linarith
    linarith

/-- At half steering the turning circle reduces, via
`sin(35°) = 2·sin(17.5°)·cos(17.5°)`, to `3.6·cos(17.5°)`. -/
theorem get_turn_circle_half : get_turn_circle (1/2) = 3.6 * Real.cos (7 * Real.pi / 72) := by
  have hy_pos : (0 : ℝ) < 7 * Real.pi / 72 := by positivity
  have hy_lt_pi : 7 * Real.pi / 72 < Real.pi := by nlinarith [Real.pi_pos]
  have hsiny : Real.sin (7 * Real.pi / 72) ≠ 0 :=
    ne_of_gt (Real.sin_pos_of_pos_of_lt_pi hy_pos hy_lt_pi)
  have hr1 : radians ((1/2 : ℝ) * steering_angle_max) = 7 * Real.pi / 72 := by
    unfold radians steering_angle_max; ring
  have hr2 : radians steering_angle_max = 2 * (7 * Real.pi / 72) := by
    unfold radians steering_angle_max; ring
  unfold get_turn_circle
  rw [if_neg (by norm_num), hr1, hr2, Real.sin_two_mul]
  unfold turning_circle
  field_simp
  ring

/-- At half steering and 2 m/s the yaw rate is
`360/((π·3.6·cos(17.5°))/2)`. -/
theorem get_yaw_rate_half_two :
    get_yaw_rate (1/2) 2 = 360 / (Real.pi * (3.6 * Real.cos (7 * Real.pi / 72)) / 2) := by
  unfold get_yaw_rate
  rw [if_neg (by norm_num), get_turn_circle_half]

/-- `sin(radians(35°))` is positive. -/
theorem sin_radians_steering_angle_max_pos :
    0 < Real.sin (radians steering_angle_max) := by
  apply Real.sin_pos_of_pos_of_lt_pi
  · unfold radians steering_angle_max
    positivity
  · unfold radians steering_angle_max
    nlinarith [Real.pi_pos]

/-- For steering in `[-1,1] \ {0}`, the divisor
`sin(radians(steering·35°))` is nonzero. -/
theorem sin_radians_steering_ne_zero (s : ℝ) (hlo : -1 ≤ s) (hhi : s ≤ 1) (hs0 : s ≠ 0) :
    Real.sin (radians (s * steering_angle_max)) ≠ 0 := by
  have hpi := Real.pi_pos
  rcases lt_or_gt_of_ne hs0 with hneg | hpos
  · have h1 : radians (s * steering_angle_max) < 0 := by
      unfold radians steering_angle_max
      nlinarith [mul_pos (neg_pos.2 hneg) hpi]
    have h2 : -Real.pi < radians (s * steering_angle_max) := by
      unfold radians steering_angle_max
      nlinarith [mul_nonneg (by linarith : (0:ℝ) ≤ s + 1)
        (by positivity : (0:ℝ) ≤ 35 * Real.pi / 180)]
    have h3 : 0 < Real.sin (-radians (s * steering_angle_max)) :=
      Real.sin_pos_of_pos_of_lt_pi (by linarith) (by linarith)
    rw [Real.sin_neg] at h3
    exact ne_of_lt (by linarith)
  · have h1 : 0 < radians (s * steering_angle_max) := by
      unfold radians steering_angle_max
      nlinarith [mul_pos hpos hpi]
    have h2 : radians (s * steering_angle_max) < Real.pi := by
      unfold radians steering_angle_max
      nlinarith [mul_nonneg (by linarith : (0:ℝ) ≤ 1 - s)
        (by positivity : (0:ℝ) ≤ 35 * Real.pi / 180)]
    exact ne_of_gt (Real.sin_pos_of_pos_of_lt_pi h1 h2)

/-- For steering in `[-1,1] \ {0}` the turning circle is nonzero. -/
theorem get_turn_circle_ne_zero (s : ℝ) (hlo : -1 ≤ s) (hhi : s ≤ 1) (hs0 : s ≠ 0) :
    get_turn_circle s ≠ 0 := by
  unfold get_turn_circle
  rw [if_neg hs0]
  apply div_ne_zero
  · exact mul_ne_zero (by norm_num [turning_circle])
      (ne_of_gt sin_radians_steering_angle_max_pos)
  · exact sin_radians_steering_ne_zero s hlo hhi hs0

/-- `wrap_2PI` always lands in `[0, 2π)`. -/
theorem wrap_2PI_mem_Ico (x : ℝ) : wrap_2PI x ∈ Set.Ico 0 (2 * Real.pi) := by
  have h2pi : (0:ℝ) < 2 * Real.pi := by positivity
  have hx : wrap_2PI x = 2 * Real.pi * Int.fract (x / (2 * Real.pi)) := by
    unfold wrap_2PI Int.fract
    field_simp
  constructor
  · rw [hx]
    exact mul_nonneg h2pi.le (Int.fract_nonneg _)
  · rw [hx]
    calc 2 * Real.pi * Int.fract (x / (2 * Real.pi)) < 2 * Real.pi * 1 :=
          (mul_lt_mul_left h2pi).2 (Int.fract_lt_one _)
    _ = 2 * Real.pi := mul_one _

/-- After any call to `update_wave` the phase lies in `[0, 2π)`. -/
theorem update_wave_phase_mem (c : Collab) (env : Env) (dt : ℝ) (s : State) :
    (update_wave c env dt s).wave_phase ∈ Set.Ico 0 (2 * Real.pi) := by
  have h2pi : (0:ℝ) < 2 * Real.pi := by positivity
  unfold update_wave
  by_cases h : env.wave_enable = 0 ∨ ¬env.soft_armed ∨ env.wave_amp = 0
  · rw [if_pos h]
    exact ⟨le_refl 0, h2pi⟩
  · rw [if_neg h]
    exact wrap_2PI_mem_Ico _

/-! ## The claims -/

/-- Claim C2: `calc_lift_and_drag` computes the common coefficient
`k = ½·ρ·v²·sail_area` with ρ = 1.225 and `sail_area = 1.5`, returns
`drag = cd(|a|)·k` and `lift = cl(|a|)·k·sign(a)` with `a` first
normalized to ±180°; at wind speed 5 m/s and angle of attack 20°, `k`
and the lift are exactly 22.96875 ≈ 22.97 N and the drag is exactly
4.59375 ≈ 4.59 N. -/
theorem calc_lift_and_drag_spec (v a : ℝ) :
    calc_lift_and_drag v a =
      (lookupCurve CL_curve |wrap_180 a| * (1 / 2 * 1.225 * v ^ 2 * sail_area) *
        signum (wrap_180 a),
       lookupCurve CD_curve |wrap_180 a| * (1 / 2 * 1.225 * v ^ 2 * sail_area)) ∧
    sail_area = 1.5 ∧
    (calc_lift_and_drag 5 20).1 = 22.96875 ∧
    (calc_lift_and_drag 5 20).2 = 4.59375 ∧
    |1 / 2 * 1.225 * (5:ℝ) ^ 2 * sail_area - 22.97| < 0.01 ∧
    |(calc_lift_and_drag 5 20).1 - 22.97| < 0.01 ∧
    |(calc_lift_and_drag 5 20).2 - 4.59| < 0.01 := by
  have h : ⌊(20:ℝ) / 360⌋ = 0 := by
    rw [Int.floor_eq_zero_iff]; constructor <;> norm_num
  have hw : wrap_180 (20:ℝ) = 20 := by
    simp [wrap_180, wrap_360, h]
    norm_num
  have hcl : lookupCurve CL_curve 20 = 1 := by norm_num [CL_curve, lookupCurve]
  have hcd : lookupCurve CD_curve 20 = 0.2 := by norm_num [CD_curve, lookupCurve]
  have hsig : signum (20:ℝ) = 1 := by norm_num [signum]
  have hlift : (calc_lift_and_drag 5 20).1 = 22.96875 := by
    show lookupCurve CL_curve |wrap_180 20| * _ * signum (wrap_180 20) = _
    rw [hw]
    norm_num [hcl, hsig, sail_area]
  have hdrag : (calc_lift_and_drag 5 20).2 = 4.59375 := by
    show lookupCurve CD_curve |wrap_180 20| * _ = _
    rw [hw]
    norm_num [hcd, sail_area]
  refine ⟨rfl, rfl, hlift, hdrag, ?_, ?_, ?_⟩
  · rw [sail_area, abs_lt]
    constructor <;> norm_num
  · rw [hlift, abs_lt]
    constructor <;> norm_num
  · rw [hdrag, abs_lt]
    constructor <;> norm_num

/-- Claim C9: when the vehicle is not soft-armed,
`get_heel_angular_acceleration` returns exactly 0 for every heel force,
roll angle and roll rate. -/
theorem heel_angular_acceleration_zero_when_disarmed
    (force_heel roll_angle roll_rate : ℝ) :
    get_heel_angular_acceleration false force_heel roll_angle roll_rate = 0 := by
  simp [get_heel_angular_acceleration]

/-- Claim C4: for the sheet-trimmed sail type the signed angle of attack
is `max(|wind| - sail, 0) * signum wind`, and the magnitude before the
sign is reapplied is never negative. -/
theorem sheet_trimmed_aoa_formula (w s : ℝ) :
    sail_aoa_deg SailType.mainsail_with_sheet w s = max (|w| - s) 0 * signum w ∧
    0 ≤ max (|w| - s) 0 :=
  ⟨rfl, le_max_right _ _⟩

/-- Claim C3: in every update step the wind-frame lift and drag are
resolved into body frame through the apparent-wind body-frame angle θ:
forward force `lift·sin θ − drag·cos θ` and heel force
`lift·cos θ + drag·sin θ`. -/
theorem update_force_resolution (c : Collab) (env : Env) (input : Input) (s : State) :
    update_forces c env input s =
      ((update_lift_drag c env input s).1 *
          Real.sin (radians (wind_apparent_dir_bf_signed c input s)) -
        (update_lift_drag c env input s).2 *
          Real.cos (radians (wind_apparent_dir_bf_signed c input s)),
       (update_lift_drag c env input s).1 *
          Real.cos (radians (wind_apparent_dir_bf_signed c input s)) +
        (update_lift_drag c env input s).2 *
          Real.sin (radians (wind_apparent_dir_bf_signed c input s))) :=
  rfl

/-- Claim C8: whenever waves are disabled, the amplitude is zero, or the
vehicle is not soft-armed, `update_wave` sets the gyro disturbance to
`(-roll, -pitch, 0)` (gain 1), the heave to the negated vertical
earth-frame velocity (gain 1), and resets the phase to 0; the resulting
gyro disturbance does not depend on the prior wave phase. -/
theorem update_wave_disabled_path (c : Collab) (env : Env) (dt : ℝ) (s s₂ : State)
    (h : env.wave_enable = 0 ∨ ¬env.soft_armed ∨ env.wave_amp = 0) :
    (update_wave c env dt s).wave_gyro =
      ⟨-(c.toEuler s.dcm).1, -(c.toEuler s.dcm).2.1, 0⟩ ∧
    (update_wave c env dt s).wave_heave = -s.velocity_ef.z ∧
    (update_wave c env dt s).wave_phase = 0 ∧
    (c.toEuler s₂.dcm = c.toEuler s.dcm →
      (update_wave c env dt s₂).wave_gyro = (update_wave c env dt s).wave_gyro) := by
  refine ⟨?_, ?_, ?_, ?_⟩
  · unfold update_wave
    rw [if_pos h]
    simp [Vec3.smul]
  · unfold update_wave
    rw [if_pos h]
    simp
  · unfold update_wave
    rw [if_pos h]
  · intro heq
    unfold update_wave
    rw [if_pos h, if_pos h, heq]

/-- Claim C8 witness: the disabled path at a concrete disarmed
environment and state. -/
theorem update_wave_disabled_path_witness :
    (update_wave sampleCollab sampleEnv 0.02 sampleState).wave_gyro =
      ⟨-(sampleCollab.toEuler sampleState.dcm).1,
       -(sampleCollab.toEuler sampleState.dcm).2.1, 0⟩ ∧
    (update_wave sampleCollab sampleEnv 0.02 sampleState).wave_heave =
      -sampleState.velocity_ef.z ∧
    (update_wave sampleCollab sampleEnv 0.02 sampleState).wave_phase = 0 ∧
    (sampleCollab.toEuler sampleState.dcm = sampleCollab.toEuler sampleState.dcm →
      (update_wave sampleCollab sampleEnv 0.02 sampleState).wave_gyro =
        (update_wave sampleCollab sampleEnv 0.02 sampleState).wave_gyro) :=
  update_wave_disabled_path sampleCollab sampleEnv 0.02 sampleState sampleState
    (Or.inl rfl)

/-- Claim C7: after every call to `update_wave` (and after every full
`update` step, hence after any number of successive updates) the wave
phase lies in `[0, 2π)`; on the enabled path the phase is the prior
phase incremented by `((wave_speed − boat_speed)·Δt/wave_length)·2π`
and wrapped into `[0, 2π)`; on the disabled path it is reset to 0. -/
theorem update_wave_phase_invariant (c : Collab) (env : Env) (dt : ℝ) (s : State)
    (hen : ¬(env.wave_enable = 0 ∨ ¬env.soft_armed ∨ env.wave_amp = 0)) :
    (∀ (env₂ : Env) (s₂ : State),
      (update_wave c env₂ dt s₂).wave_phase ∈ Set.Ico 0 (2 * Real.pi)) ∧
    (∀ (env₂ : Env) (input : Input) (s₂ : State),
      (update c env₂ input s₂).wave_phase ∈ Set.Ico 0 (2 * Real.pi)) ∧
    (update_wave c env dt s).wave_phase =
      wrap_2PI (s.wave_phase +
        (env.wave_speed -
            (s.velocity_ef.x * Real.sin (radians env.wave_direction) +
             s.velocity_ef.y * Real.cos (radians env.wave_direction))) * dt /
          env.wave_length * (2 * Real.pi)) ∧
    (∀ (env₂ : Env) (s₂ : State),
      (env₂.wave_enable = 0 ∨ ¬env₂.soft_armed ∨ env₂.wave_amp = 0) →
        (update_wave c env₂ dt s₂).wave_phase = 0) := by
  refine ⟨fun env₂ s₂ => update_wave_phase_mem c env₂ dt s₂, ?_, ?_, ?_⟩
  · intro env₂ input s₂
    unfold update
    exact update_wave_phase_mem _ _ _ _
  · unfold update_wave
    rw [if_neg hen]
  · intro env₂ s₂ h2
    unfold update_wave
    rw [if_pos h2]

/-- Claim C7 witness: a concrete armed environment with waves enabled. -/
theorem update_wave_phase_invariant_witness :
    (∀ (env₂ : Env) (s₂ : State),
      (update_wave sampleCollab env₂ 0.02 s₂).wave_phase ∈ Set.Ico 0 (2 * Real.pi)) ∧
    (∀ (env₂ : Env) (input : Input) (s₂ : State),
      (update sampleCollab env₂ input s₂).wave_phase ∈ Set.Ico 0 (2 * Real.pi)) ∧
    (update_wave sampleCollab sampleEnvWaves 0.02 sampleState).wave_phase =
      wrap_2PI (sampleState.wave_phase +
        (sampleEnvWaves.wave_speed -
            (sampleState.velocity_ef.x * Real.sin (radians sampleEnvWaves.wave_direction) +
             sampleState.velocity_ef.y * Real.cos (radians sampleEnvWaves.wave_direction))) * 0.02 /
          sampleEnvWaves.wave_length * (2 * Real.pi)) ∧
    (∀ (env₂ : Env) (s₂ : State),
      (env₂.wave_enable = 0 ∨ ¬env₂.soft_armed ∨ env₂.wave_amp = 0) →
        (update_wave sampleCollab env₂ 0.02 s₂).wave_phase = 0) :=
  update_wave_phase_invariant sampleCollab sampleEnvWaves 0.02 sampleState
    (by norm_num [sampleEnvWaves])

/-- Claim C1: the step function is a deterministic function of its
inputs and prior state; two runs of N steps in the same environment
from the same initial state, fed input sequences that agree on the
first N snapshots, produce identical position, attitude and velocity
(indeed identical whole states). -/
theorem update_run_deterministic (c : Collab) (env : Env) (ins₁ ins₂ : ℕ → Input)
    (n : ℕ) (s : State) (h : ∀ i, i < n → ins₁ i = ins₂ i) :
    (runSteps c env ins₁ n s).position = (runSteps c env ins₂ n s).position ∧
    (runSteps c env ins₁ n s).dcm = (runSteps c env ins₂ n s).dcm ∧
    (runSteps c env ins₁ n s).velocity_ef = (runSteps c env ins₂ n s).velocity_ef ∧
    runSteps c env ins₁ n s = runSteps c env ins₂ n s := by
  have key : runSteps c env ins₁ n s = runSteps c env ins₂ n s := by
    induction n with
    | zero => rfl
    | succ k ih =>
        have hk := ih fun i hi => h i (Nat.lt_succ_of_lt hi)
        simp only [runSteps, hk, h k (Nat.lt_succ_self k)]
  exact ⟨by rw [key], by rw [key], by rw [key], key⟩

/-- Claim C1 witness: two concrete runs of 3 steps whose input
sequences agree on the first 3 snapshots (and differ afterwards). -/
theorem update_run_deterministic_witness :
    (runSteps sampleCollab sampleEnv (fun _ => sampleInput) 3 sampleState).position =
      (runSteps sampleCollab sampleEnv
        (fun i => if i < 3 then sampleInput else sampleInputB) 3 sampleState).position ∧
    (runSteps sampleCollab sampleEnv (fun _ => sampleInput) 3 sampleState).dcm =
      (runSteps sampleCollab sampleEnv
        (fun i => if i < 3 then sampleInput else sampleInputB) 3 sampleState).dcm ∧
    (runSteps sampleCollab sampleEnv (fun _ => sampleInput) 3 sampleState).velocity_ef =
      (runSteps sampleCollab sampleEnv
        (fun i => if i < 3 then sampleInput else sampleInputB) 3 sampleState).velocity_ef ∧
    runSteps sampleCollab sampleEnv (fun _ => sampleInput) 3 sampleState =
      runSteps sampleCollab sampleEnv
        (fun i => if i < 3 then sampleInput else sampleInputB) 3 sampleState :=
  update_run_deterministic sampleCollab sampleEnv (fun _ => sampleInput)
    (fun i => if i < 3 then sampleInput else sampleInputB) 3 sampleState
    (fun i hi => by simp [hi])

/-- Claim C5: `get_turn_circle` returns 0 at zero steering and
`turning_circle·sin(35°)/sin(steering·35°)` at nonzero steering; at
steering 0.5 the result is `1.8·sin(35°)/sin(17.5°) ≈ 3.43` m and at
speed 2 m/s the yaw rate is ≈ 66.9 deg/s (within 0.2; the exact value
is ≈ 66.75). -/
theorem turn_circle_formula_and_scenario (s : ℝ) (hs0 : s ≠ 0) :
    get_turn_circle 0 = 0 ∧
    get_turn_circle s = turning_circle * Real.sin (radians steering_angle_max) /
      Real.sin (radians (s * steering_angle_max)) ∧
    |get_turn_circle (1/2) - 3.43| < 0.005 ∧
    |get_yaw_rate (1/2) 2 - 66.9| < 0.2 := by
  refine ⟨by simp [get_turn_circle], ?_, ?_, ?_⟩
  · unfold get_turn_circle
    rw [if_neg hs0]
  · rw [get_turn_circle_half]
    exact scenario_tc_bound
  · rw [get_yaw_rate_half_two]
    exact scenario_yaw_bound

/-- Claim C5 witness: the nonzero-steering formula at steering 0.5
together with the concrete scenario bounds. -/
theorem turn_circle_formula_and_scenario_witness :
    get_turn_circle 0 = 0 ∧
    get_turn_circle (1/2) = turning_circle * Real.sin (radians steering_angle_max) /
      Real.sin (radians ((1/2) * steering_angle_max)) ∧
    |get_turn_circle (1/2) - 3.43| < 0.005 ∧
    |get_yaw_rate (1/2) 2 - 66.9| < 0.2 :=
  turn_circle_formula_and_scenario (1/2) (by norm_num)

/-- Claim C6: the degenerate zero cases of the steering kinematics: zero
steering or zero speed returns 0 through the early branch, and for
steering in `[-1,1] \ {0}` and nonzero speed every divisor reached in
`get_turn_circle`, `get_yaw_rate` and `get_lat_accel` is nonzero. -/
theorem steering_degenerate_zero_cases (s u w v : ℝ)
    (hlo : -1 ≤ s) (hhi : s ≤ 1) (hs0 : s ≠ 0) (hv : v ≠ 0) :
    get_turn_circle 0 = 0 ∧
    get_yaw_rate 0 w = 0 ∧
    get_yaw_rate u 0 = 0 ∧
    get_lat_accel 0 w = 0 ∧
    get_lat_accel u 0 = 0 ∧
    Real.sin (radians (s * steering_angle_max)) ≠ 0 ∧
    get_turn_circle s ≠ 0 ∧
    Real.pi * get_turn_circle s / v ≠ 0 := by
  refine ⟨by simp [get_turn_circle], by simp [get_yaw_rate], by simp [get_yaw_rate],
    ?_, ?_, sin_radians_steering_ne_zero s hlo hhi hs0,
    get_turn_circle_ne_zero s hlo hhi hs0, ?_⟩
  · simp [get_lat_accel, get_yaw_rate, radians]
  · simp [get_lat_accel, get_yaw_rate, radians]
  · exact div_ne_zero
      (mul_ne_zero Real.pi_ne_zero (get_turn_circle_ne_zero s hlo hhi hs0)) hv

/-- Claim C6 witness: the degenerate cases at concrete inputs
(steering 0.5, speeds 4 and 2, auxiliary steering 3·10⁻¹). -/
theorem steering_degenerate_zero_cases_witness :
    get_turn_circle 0 = 0 ∧
    get_yaw_rate 0 4 = 0 ∧
    get_yaw_rate 0.3 0 = 0 ∧
    get_lat_accel 0 4 = 0 ∧
    get_lat_accel 0.3 0 = 0 ∧
    Real.sin (radians ((1/2) * steering_angle_max)) ≠ 0 ∧
    get_turn_circle (1/2) ≠ 0 ∧
    Real.pi * get_turn_circle (1/2) / 2 ≠ 0 :=
  steering_degenerate_zero_cases (1/2) 0.3 4 2 (by norm_num) (by norm_num)
    (by norm_num) (by norm_num)

/-- Claim C10: the tide velocity always has a zero vertical component,
and when the vehicle is disarmed or the configured tide speed is zero
the tide velocity is the zero vector, so the published earth-frame
velocity of the update step equals the water-relative velocity. -/
theorem tide_velocity_properties (c : Collab) (env : Env) (input : Input) (s : State)
    (h : ¬env.soft_armed ∨ env.tide_speed = 0) :
    (∀ env₂ : Env, (tide_velocity_ef env₂).z = 0) ∧
    tide_velocity_ef env = Vec3.zero ∧
    (update c env input s).velocity_ef = (update c env input s).velocity_ef_water := by
  have hzero : tide_velocity_ef env = Vec3.zero := by
    unfold tide_velocity_ef
    rw [if_neg]
    rintro ⟨harm, hspd⟩
    rcases h with h | h
    · exact h (by simp [harm])
    · exact hspd h
  refine ⟨?_, hzero, ?_⟩
  · intro env₂
    unfold tide_velocity_ef
    by_cases hc : env₂.soft_armed = true ∧ env₂.tide_speed ≠ 0
    · rw [if_pos hc]
    · rw [if_neg hc]
      rfl
  · rw [update_velocity_ef_split, hzero, Vec3.add_zero]

/-- Claim C10 witness: the zero vertical tide component at a concrete
armed environment with a nonzero configured tide, and the
disarmed-path conclusions at a concrete disarmed environment. -/
theorem tide_velocity_properties_witness :
    (tide_velocity_ef sampleEnvTide).z = 0 ∧
    tide_velocity_ef sampleEnv = Vec3.zero ∧
    (update sampleCollab sampleEnv sampleInput sampleState).velocity_ef =
      (update sampleCollab sampleEnv sampleInput sampleState).velocity_ef_water := by
  have h := tide_velocity_properties sampleCollab sampleEnv sampleInput sampleState
    (Or.inl (by simp [sampleEnv]))
  exact ⟨h.1 sampleEnvTide, h.2.1, h.2.2⟩

end

end SailboatSim
